import Mathlib

/-!
Shallow embedding of the order-lifecycle and stock-consistency core of the
`online-store` Go service (`internal/services/orders.go`,
`internal/services/products.go`, `internal/mqtt/handlers.go`,
`internal/handlers/orders.go`, `internal/models/*.go`).

Conventions of the embedding:
* The MariaDB/MySQL database is modelled as an explicit `DB` value holding the
  `products` and `orders` tables as lists plus the orders AUTO_INCREMENT counter.
* Go `int` values are modelled as `Int` (the quantities involved are far from
  the 64-bit boundary and no claim is about overflow).
* `time.Now()` timestamps are ambient wall-clock values irrelevant to every
  claim; timestamp fields are omitted from the model.
* MQTT publishing is modelled by returning the list of published events;
  publish failures are logged and never change control flow in the source, so
  they are not modelled.
* Fallible operations return `Except ServiceError`.
-/

deriving instance DecidableEq for Except

namespace OnlineStore

/-- `models.Product` (internal/models/product.go), minus `CreatedAt`. -/
structure Product where
  id : Int
  name : String
  description : String
  priceCents : Int
  stockQuantity : Int
deriving DecidableEq

/-- A row of the `orders` table (internal/database: CREATE TABLE orders).
Status is a string as in the Go code; the DB enum admits
`pending`, `paid`, `shipped`, `delivered`. -/
structure Order where
  id : Int
  userId : Int
  productId : Int
  quantity : Int
  totalCents : Int
  status : String
deriving DecidableEq

/-- `models.OrderRequest` (internal/models/order.go): the JSON body of
POST /api/orders, with gin binding tags `product_id binding:required`,
`quantity binding:required,min=1`. -/
structure OrderRequest where
  productID : Int
  quantity : Int
deriving DecidableEq

/-- `models.ProductRequest` (internal/models/product.go). -/
structure ProductRequest where
  name : String
  description : String
  priceCents : Int
  stockQuantity : Int
deriving DecidableEq

/-- `models.OrderResponse` (internal/models/order.go), minus `CreatedAt`. -/
structure OrderResponse where
  id : Int
  productId : Int
  productName : String
  quantity : Int
  totalCents : Int
  status : String
deriving DecidableEq

/-- The relational store: `products` and `orders` tables plus the orders
AUTO_INCREMENT counter (`LastInsertId` source). -/
structure DB where
  products : List Product
  orders : List Order
  nextOrderId : Int
deriving DecidableEq

/-- Business errors returned by the services (the Go code returns them as
`fmt.Errorf` strings: "product not found", "insufficient stock: ...",
"order not found"; the HTTP binding layer rejects malformed input). -/
inductive ServiceError where
  | productNotFound
  | insufficientStock (available : Int)
  | orderNotFound
  | invalidInput
deriving DecidableEq

/-- MQTT events published by the services (internal/models/order.go event
structs and the anonymous event structs in the services), minus timestamps. -/
inductive Event where
  | orderCreated (orderId userId productId quantity totalCents : Int)
  | lowStockAlert (productId : Int) (productName : String)
      (currentStock reorderLevel : Int)
  | orderStatusChanged (orderId : Int) (status : String)
  | productUpdated (productId : Int) (name : String)
deriving DecidableEq

/-- `SELECT ... FROM products WHERE id = ?`: first row with the given id. -/
def findProduct : List Product → Int → Option Product
  | [], _ => none
  | p :: rest, pid => if p.id = pid then some p else findProduct rest pid

/-- `SELECT ... FROM orders o JOIN products p ... WHERE o.id = ? AND o.user_id = ?`:
first order row matching both the order id and the user id. -/
def findOrder : List Order → Int → Int → Option Order
  | [], _, _ => none
  | o :: rest, oid, uid =>
    if o.id = oid ∧ o.userId = uid then some o else findOrder rest oid uid

/-- `UPDATE products SET stock_quantity = ? WHERE id = ?`. -/
def setStockQ (products : List Product) (productID newStock : Int) : List Product :=
  products.map fun p =>
    if p.id = productID then { p with stockQuantity := newStock } else p

/-- `UPDATE orders SET status = ? WHERE id = ?`. -/
def setStatus (orders : List Order) (orderID : Int) (status : String) : List Order :=
  orders.map fun o =>
    if o.id = orderID then { o with status := status } else o

/-- Number of rows the `UPDATE orders SET status = ...` statement reports as
affected. The service connects with go-sql-driver/mysql and a DSN without
`clientFoundRows` (internal/config + internal/database), so MySQL reports the
number of rows actually *changed*, not the number matched: a row whose status
already equals the new value is not counted. -/
def rowsChanged (orders : List Order) (orderID : Int) (status : String) : Nat :=
  (orders.filter fun o => decide (o.id = orderID ∧ ¬ o.status = status)).length

/-- `OrderService.CreateOrder` (internal/services/orders.go:30-137): inside one
DB transaction, read the product, check stock, insert the order with status
"pending", decrement the stock, commit; then publish `order/created` and, when
the new stock is below 10, `inventory/low_stock`.
Returns (result, database after the call, published events). -/
def createOrder (db : DB) (userID : Int) (req : OrderRequest) :
    Except ServiceError OrderResponse × DB × List Event :=
  match findProduct db.products req.productID with
  | none => (.error .productNotFound, db, [])
  | some product =>
    if product.stockQuantity < req.quantity then
      (.error (.insufficientStock product.stockQuantity), db, [])
    else
      (.ok ⟨db.nextOrderId, req.productID, product.name, req.quantity,
            product.priceCents * req.quantity, "pending"⟩,
       ⟨setStockQ db.products req.productID (product.stockQuantity - req.quantity),
        db.orders ++ [⟨db.nextOrderId, userID, req.productID, req.quantity,
                       product.priceCents * req.quantity, "pending"⟩],
        db.nextOrderId + 1⟩,
       Event.orderCreated db.nextOrderId userID req.productID req.quantity
           (product.priceCents * req.quantity) ::
         (if product.stockQuantity - req.quantity < 10 then
            [Event.lowStockAlert req.productID product.name
                (product.stockQuantity - req.quantity) 10]
          else []))

/-- Gin `ShouldBindJSON` validation of `models.OrderRequest`:
`product_id` is `required` (zero value rejected) and `quantity` is
`required,min=1` (so quantity ≥ 1). -/
def bindOrderRequest (req : OrderRequest) : Bool :=
  decide (¬ req.productID = 0) && decide (1 ≤ req.quantity)

/-- `OrderHandler.CreateOrder` (internal/handlers/orders.go): binds and
validates the JSON body, then calls the service. A binding failure is a 400
response (`InvalidInput`) and the service is never invoked. -/
def createOrderHTTP (db : DB) (userID : Int) (req : OrderRequest) :
    Except ServiceError OrderResponse × DB × List Event :=
  if bindOrderRequest req then createOrder db userID req
  else (.error .invalidInput, db, [])

/-- `OrderService.GetOrder` (internal/services/orders.go:177-202): one SELECT
scoped by `o.id = ? AND o.user_id = ?`, joined with `products` for the product
name; `sql.ErrNoRows` becomes the error "order not found". -/
def getOrder (db : DB) (orderID userID : Int) : Except ServiceError OrderResponse :=
  match findOrder db.orders orderID userID with
  | none => .error .orderNotFound
  | some o =>
    match findProduct db.products o.productId with
    | none => .error .orderNotFound
    | some p => .ok ⟨o.id, o.productId, p.name, o.quantity, o.totalCents, o.status⟩

/-- `OrderService.UpdateOrderStatus` (internal/services/orders.go:206-241):
unconditional `UPDATE orders SET status = ? WHERE id = ?`; when
`RowsAffected() == 0` it returns the error "order not found", otherwise it
publishes `order/status_changed`. See `rowsChanged` for the MySQL
changed-rows semantics of `RowsAffected`. -/
def updateOrderStatus (db : DB) (orderID : Int) (status : String) :
    Except ServiceError Unit × DB × List Event :=
  if rowsChanged db.orders orderID status = 0 then
    (.error .orderNotFound, { db with orders := setStatus db.orders orderID status }, [])
  else
    (.ok (), { db with orders := setStatus db.orders orderID status },
     [Event.orderStatusChanged orderID status])

/-- `ProductService.UpdateStock` (internal/services/products.go:147-178):
unconditional `UPDATE products SET stock_quantity = ? WHERE id = ?` (no
non-negativity check, no row-count check); when the new stock is below 10 it
re-reads the product (`GetProduct`) and publishes `inventory/low_stock`. -/
def updateStock (db : DB) (productID newStock : Int) :
    Except ServiceError Unit × DB × List Event :=
  if newStock < 10 then
    match findProduct (setStockQ db.products productID newStock) productID with
    | none => (.error .productNotFound,
               { db with products := setStockQ db.products productID newStock }, [])
    | some p => (.ok (),
                 { db with products := setStockQ db.products productID newStock },
                 [Event.lowStockAlert productID p.name newStock 10])
  else
    (.ok (), { db with products := setStockQ db.products productID newStock }, [])

/-- `ProductService.UpdateProduct` (internal/services/products.go:112-143):
one UPDATE of all four product columns, re-read, publish `product/updated`.
It touches only the `products` table; the `orders` table is untouched. -/
def updateProduct (db : DB) (id : Int) (req : ProductRequest) :
    Except ServiceError Product × DB × List Event :=
  let products2 := db.products.map fun p =>
    if p.id = id then
      { p with name := req.name, description := req.description,
               priceCents := req.priceCents, stockQuantity := req.stockQuantity }
    else p
  match findProduct products2 id with
  | none => (.error .productNotFound, { db with products := products2 }, [])
  | some p => (.ok p, { db with products := products2 },
               [Event.productUpdated p.id p.name])

/-- The decoded payload of a `payment/confirmed` MQTT message
(internal/mqtt/handlers.go:84-87): `{order_id, status}`. -/
structure PaymentConfirmedMsg where
  orderId : Int
  status : String
deriving DecidableEq

/-- `Handlers.handlePaymentConfirmed` (internal/mqtt/handlers.go:80-101) on a
successfully decoded payload: calls `UpdateOrderStatus(payment.OrderID, "paid")`
— the literal "paid", never the payload's status field. A service error is
logged and swallowed (the third component records whether an error was
logged). -/
def handlePaymentConfirmed (db : DB) (msg : PaymentConfirmedMsg) :
    DB × List Event × Bool :=
  match updateOrderStatus db msg.orderId "paid" with
  | (.error _, db2, ev) => (db2, ev, true)
  | (.ok _, db2, ev) => (db2, ev, false)

/-- The operations of the system that touch the `products` / `orders` tables
along the paths the claims quantify over: order creation (service level),
a decoded `payment/confirmed` delivery, and a decoded `inventory/update`
delivery (`handleInventoryUpdate` calls `UpdateStock` directly with the
decoded integers, internal/mqtt/handlers.go:56-77). -/
inductive SysOp where
  | createOrderOp (userID : Int) (req : OrderRequest)
  | paymentConfirmedOp (msg : PaymentConfirmedMsg)
  | inventoryUpdateOp (productID newStock : Int)
deriving DecidableEq

/-- The database after one system operation. -/
def applyOp (db : DB) : SysOp → DB
  | .createOrderOp uid req => (createOrder db uid req).2.1
  | .paymentConfirmedOp msg => (handlePaymentConfirmed db msg).1
  | .inventoryUpdateOp pid ns => (updateStock db pid ns).2.1

/-- The database after a sequence of system operations. -/
def runOps (db : DB) : List SysOp → DB
  | [] => db
  | op :: rest => runOps (applyOp db op) rest

/-- All stock quantities in the store are non-negative. -/
abbrev stocksNonneg (db : DB) : Prop :=
  ∀ p ∈ db.products, 0 ≤ p.stockQuantity

/-- Every order status is one the running system can produce: orders are
inserted with "pending" (orders.go:70) and the only status ever written
afterwards is the literal "paid" (handlers.go:95). -/
abbrev ordersStatusOK (db : DB) : Prop :=
  ∀ o ∈ db.orders, o.status = "pending" ∨ o.status = "paid"

/-- Position of a status in the forward chain
`pending → paid → shipped → delivered` of the spec and of the DB enum. -/
def statusRank (s : String) : Nat :=
  if s = "pending" then 0
  else if s = "paid" then 1
  else if s = "shipped" then 2
  else if s = "delivered" then 3
  else 4

/-! ### Interleaving model of concurrent `CreateOrder` transactions

`CreateOrder` runs `SELECT ... FROM products WHERE id = ?` (a plain,
non-locking consistent read under InnoDB's default repeatable-read isolation:
no `FOR UPDATE`), checks the stock in Go, and later runs
`UPDATE products SET stock_quantity = <value computed in Go from the snapshot>`
and commits. Two transactions against the same product row therefore have two
externally visible steps each:

* **read**: snapshot the committed stock and run the Go-side
  `StockQuantity < Quantity` check on the snapshot;
* **commit**: overwrite the stock with `snapshot - quantity` (the value was
  computed from the snapshot, not re-read), record the inserted order, and
  commit. The row lock taken by the UPDATE only sequences the writes; it does
  not re-validate the stale snapshot.

A schedule is the sequence of transaction indices whose next step runs. -/

structure RaceTxn where
  qty : Int
  snapshot : Option Int
  /-- `some true` = order committed, `some false` = failed the stock check. -/
  committed : Option Bool
deriving DecidableEq

/-- Advance transaction `i` of the race model by one step. -/
def raceStep : Int × List RaceTxn → Nat → Int × List RaceTxn
  | (stock, txns), i =>
    match txns.get? i with
    | none => (stock, txns)
    | some t =>
      match t.snapshot with
      | none =>
        if stock < t.qty then
          (stock, txns.set i { t with snapshot := some stock, committed := some false })
        else
          (stock, txns.set i { t with snapshot := some stock })
      | some snap =>
        match t.committed with
        | some _ => (stock, txns)
        | none => (snap - t.qty, txns.set i { t with committed := some true })

/-- Run a schedule of the race model. -/
def raceRun (s : Int × List RaceTxn) (sched : List Nat) : Int × List RaceTxn :=
  sched.foldl raceStep s

/-! ### Unfolding lemmas for the service operations -/

theorem createOrder_of_not_found {db : DB} {uid : Int} {req : OrderRequest}
    (h : findProduct db.products req.productID = none) :
    createOrder db uid req = (.error .productNotFound, db, []) := by
  unfold createOrder
  rw [h]

theorem createOrder_of_insufficient {db : DB} {uid : Int} {req : OrderRequest}
    {p : Product} (h : findProduct db.products req.productID = some p)
    (hq : p.stockQuantity < req.quantity) :
    createOrder db uid req = (.error (.insufficientStock p.stockQuantity), db, []) := by
  unfold createOrder
  rw [h]
  simp [hq]

theorem createOrder_of_ok {db : DB} {uid : Int} {req : OrderRequest}
    {p : Product} (h : findProduct db.products req.productID = some p)
    (hq : ¬ p.stockQuantity < req.quantity) :
    createOrder db uid req =
      (.ok ⟨db.nextOrderId, req.productID, p.name, req.quantity,
            p.priceCents * req.quantity, "pending"⟩,
       ⟨setStockQ db.products req.productID (p.stockQuantity - req.quantity),
        db.orders ++ [⟨db.nextOrderId, uid, req.productID, req.quantity,
                       p.priceCents * req.quantity, "pending"⟩],
        db.nextOrderId + 1⟩,
       Event.orderCreated db.nextOrderId uid req.productID req.quantity
           (p.priceCents * req.quantity) ::
         (if p.stockQuantity - req.quantity < 10 then
            [Event.lowStockAlert req.productID p.name
                (p.stockQuantity - req.quantity) 10]
          else [])) := by
  unfold createOrder
  rw [h]
  simp [hq]

theorem updateOrderStatus_db (db : DB) (orderID : Int) (status : String) :
    (updateOrderStatus db orderID status).2.1 =
      { db with orders := setStatus db.orders orderID status } := by
  unfold updateOrderStatus
  split <;> rfl

theorem handlePaymentConfirmed_db (db : DB) (msg : PaymentConfirmedMsg) :
    (handlePaymentConfirmed db msg).1 =
      { db with orders := setStatus db.orders msg.orderId "paid" } := by
  unfold handlePaymentConfirmed
  have h := updateOrderStatus_db db msg.orderId "paid"
  rcases hu : updateOrderStatus db msg.orderId "paid" with ⟨res, db2, ev⟩
  rw [hu] at h
  cases res <;> simpa using h

theorem updateStock_db (db : DB) (productID newStock : Int) :
    (updateStock db productID newStock).2.1 =
      { db with products := setStockQ db.products productID newStock } := by
  unfold updateStock
  split
  · split <;> rfl
  · rfl

theorem updateProduct_orders (db : DB) (id : Int) (req : ProductRequest) :
    (updateProduct db id req).2.1.orders = db.orders := by
  unfold updateProduct
  simp only []
  split <;> rfl

theorem findProduct_mem {l : List Product} {pid : Int} {p : Product}
    (h : findProduct l pid = some p) : p ∈ l := by
  induction l with
  | nil => simp [findProduct] at h
  | cons q rest ih =>
    by_cases hq : q.id = pid
    · simp [findProduct, hq] at h
      simp [← h]
    · simp [findProduct, hq] at h
      exact List.mem_cons_of_mem _ (ih h)

theorem findOrder_eq_none {l : List Order} {oid uid : Int}
    (h : ∀ o ∈ l, o.id = oid → ¬ o.userId = uid) :
    findOrder l oid uid = none := by
  induction l with
  | nil => rfl
  | cons o rest ih =>
    have ho : ¬ (o.id = oid ∧ o.userId = uid) := by
      rintro ⟨h1, h2⟩
      exact h o (List.mem_cons_self o rest) h1 h2
    simp [findOrder, ho]
    exact ih fun o' hm => h o' (List.mem_cons_of_mem _ hm)

theorem findOrder_some {l : List Order} {oid uid : Int} {o : Order}
    (h : findOrder l oid uid = some o) :
    o ∈ l ∧ o.id = oid ∧ o.userId = uid := by
  induction l with
  | nil => simp [findOrder] at h
  | cons q rest ih =>
    by_cases hq : q.id = oid ∧ q.userId = uid
    · simp [findOrder, hq] at h
      subst h
      exact ⟨List.mem_cons_self q rest, hq⟩
    · simp [findOrder, hq] at h
      have := ih h
      exact ⟨List.mem_cons_of_mem _ this.1, this.2⟩

/-! ### Preservation lemmas over system operations -/

/-- An inbound `inventory/update` delivery carries a non-negative stock value;
order creation and payment confirmation are unrestricted. -/
def opStockSafe : SysOp → Prop
  | .inventoryUpdateOp _ ns => 0 ≤ ns
  | _ => True

theorem createOrder_stocksNonneg {db : DB} (uid : Int) (req : OrderRequest)
    (h : stocksNonneg db) : stocksNonneg (createOrder db uid req).2.1 := by
  cases hf : findProduct db.products req.productID with
  | none =>
    rw [createOrder_of_not_found hf]
    exact h
  | some p =>
    by_cases hq : p.stockQuantity < req.quantity
    · rw [createOrder_of_insufficient hf hq]
      exact h
    · rw [createOrder_of_ok hf hq]
      intro p2 hp2
      simp only [setStockQ, List.mem_map] at hp2
      rcases hp2 with ⟨p0, hp0, rfl⟩
      by_cases hid : p0.id = req.productID
      · rw [if_pos hid]
        show 0 ≤ p.stockQuantity - req.quantity
        omega
      · rw [if_neg hid]
        exact h p0 hp0

theorem updateStock_stocksNonneg {db : DB} (pid : Int) {ns : Int}
    (hns : 0 ≤ ns) (h : stocksNonneg db) :
    stocksNonneg (updateStock db pid ns).2.1 := by
  rw [updateStock_db]
  intro p2 hp2
  simp only [setStockQ, List.mem_map] at hp2
  rcases hp2 with ⟨p0, hp0, rfl⟩
  by_cases hid : p0.id = pid
  · rw [if_pos hid]
    exact hns
  · rw [if_neg hid]
    exact h p0 hp0

theorem handlePaymentConfirmed_products (db : DB) (msg : PaymentConfirmedMsg) :
    (handlePaymentConfirmed db msg).1.products = db.products := by
  rw [handlePaymentConfirmed_db]

theorem applyOp_stocksNonneg {db : DB} {op : SysOp}
    (hop : opStockSafe op) (h : stocksNonneg db) :
    stocksNonneg (applyOp db op) := by
  cases op with
  | createOrderOp uid req => exact createOrder_stocksNonneg uid req h
  | paymentConfirmedOp msg =>
    intro p hp
    rw [applyOp, handlePaymentConfirmed_products] at hp
    exact h p hp
  | inventoryUpdateOp pid ns => exact updateStock_stocksNonneg pid hop h

theorem runOps_stocksNonneg {ops : List SysOp} {db : DB}
    (h : stocksNonneg db) (hops : ∀ op ∈ ops, opStockSafe op) :
    stocksNonneg (runOps db ops) := by
  induction ops generalizing db with
  | nil => exact h
  | cons op rest ih =>
    rw [runOps]
    exact ih (applyOp_stocksNonneg (hops op (List.mem_cons_self op rest)) h)
      fun op' hm => hops op' (List.mem_cons_of_mem _ hm)

theorem createOrder_ordersStatusOK {db : DB} (uid : Int) (req : OrderRequest)
    (h : ordersStatusOK db) : ordersStatusOK (createOrder db uid req).2.1 := by
  cases hf : findProduct db.products req.productID with
  | none =>
    rw [createOrder_of_not_found hf]
    exact h
  | some p =>
    by_cases hq : p.stockQuantity < req.quantity
    · rw [createOrder_of_insufficient hf hq]
      exact h
    · rw [createOrder_of_ok hf hq]
      intro o ho
      simp only [List.mem_append, List.mem_singleton] at ho
      rcases ho with ho | rfl
      · exact h o ho
      · exact Or.inl rfl

theorem setStatus_paid_ordersStatusOK {l : List Order} {oid : Int}
    (h : ∀ o ∈ l, o.status = "pending" ∨ o.status = "paid") :
    ∀ o ∈ setStatus l oid "paid", o.status = "pending" ∨ o.status = "paid" := by
  intro o ho
  simp only [setStatus, List.mem_map] at ho
  rcases ho with ⟨o0, ho0, rfl⟩
  by_cases hid : o0.id = oid
  · rw [if_pos hid]
    exact Or.inr rfl
  · rw [if_neg hid]
    exact h o0 ho0

theorem applyOp_ordersStatusOK {db : DB} {op : SysOp}
    (h : ordersStatusOK db) : ordersStatusOK (applyOp db op) := by
  cases op with
  | createOrderOp uid req => exact createOrder_ordersStatusOK uid req h
  | paymentConfirmedOp msg =>
    intro o ho
    rw [applyOp, handlePaymentConfirmed_db] at ho
    exact setStatus_paid_ordersStatusOK h o ho
  | inventoryUpdateOp pid ns =>
    intro o ho
    rw [applyOp, updateStock_db] at ho
    exact h o ho

theorem runOps_ordersStatusOK {ops : List SysOp} {db : DB}
    (h : ordersStatusOK db) : ordersStatusOK (runOps db ops) := by
  induction ops generalizing db with
  | nil => exact h
  | cons op rest ih =>
    rw [runOps]
    exact ih (applyOp_ordersStatusOK h)

/-- Each system operation moves every pre-existing order to an order with the
same id whose status is at least as far along the forward chain. -/
theorem applyOp_status_monotone {db : DB} (op : SysOp)
    (h : ordersStatusOK db) :
    ∀ o ∈ db.orders, ∃ o' ∈ (applyOp db op).orders,
      o'.id = o.id ∧ statusRank o.status ≤ statusRank o'.status := by
  intro o ho
  cases op with
  | createOrderOp uid req =>
    refine ⟨o, ?_, rfl, le_refl _⟩
    cases hf : findProduct db.products req.productID with
    | none =>
      rw [applyOp, createOrder_of_not_found hf]
      exact ho
    | some p =>
      by_cases hq : p.stockQuantity < req.quantity
      · rw [applyOp, createOrder_of_insufficient hf hq]
        exact ho
      · rw [applyOp, createOrder_of_ok hf hq]
        exact List.mem_append_left _ ho
  | paymentConfirmedOp msg =>
    rw [applyOp, handlePaymentConfirmed_db]
    by_cases hid : o.id = msg.orderId
    · refine ⟨{ o with status := "paid" }, ?_, rfl, ?_⟩
      · simp only [setStatus, List.mem_map]
        exact ⟨o, ho, by simp [hid]⟩
      · rcases h o ho with hs | hs <;> simp [statusRank, hs]
    · refine ⟨o, ?_, rfl, le_refl _⟩
      simp only [setStatus, List.mem_map]
      exact ⟨o, ho, by simp [hid]⟩
  | inventoryUpdateOp pid ns =>
    refine ⟨o, ?_, rfl, le_refl _⟩
    rw [applyOp, updateStock_db]
    exact ho

/-! ### Concrete stores used to evaluate the claims -/

/-- A catalog product with 5 units in stock. -/
def prodWidget : Product := ⟨1, "Widget", "", 500, 5⟩

/-- Store with one product (stock 5) and no orders. -/
def dbOne : DB := ⟨[prodWidget], [], 1⟩

/-- Store with one product whose stock is 0 (spec Scenario C). -/
def dbZero : DB := ⟨[⟨1, "Widget", "", 500, 0⟩], [], 1⟩

/-- Store of spec Scenario A: price 2999 cents, stock 50. -/
def dbScenA : DB := ⟨[⟨1, "Widget", "", 2999, 50⟩], [], 1⟩

/-- Store of spec Scenario B: price 2999 cents, stock 11. -/
def dbScenB : DB := ⟨[⟨1, "Widget", "", 2999, 11⟩], [], 1⟩

/-- Store with one pending order with id 7 (owned by user 3). -/
def db7 : DB := ⟨[], [⟨7, 3, 1, 1, 500, "pending"⟩], 8⟩

/-- `db7` after the order was marked paid. -/
def db7paid : DB := ⟨[], [⟨7, 3, 1, 1, 500, "paid"⟩], 8⟩

/-- Store with one pending order with id 1 owned by user 2. -/
def dbPendingOrder : DB := ⟨[prodWidget], [⟨1, 2, 1, 1, 500, "pending"⟩], 2⟩

/-- Store with one paid order with id 1 owned by user 2. -/
def dbPaidOrder : DB := ⟨[prodWidget], [⟨1, 2, 1, 1, 500, "paid"⟩], 2⟩

/-! ### The claims -/

/-- Claim C1, counterexample: the claim as stated is false. `UpdateStock`
(the `SetStock` of the spec, reached from an `inventory/update` delivery)
writes its argument unconditionally, so a single `SetStock` with a negative
value drives the stock of product 1 from 5 to -1. -/
theorem c1_counterexample :
    stocksNonneg dbOne ∧
    (runOps dbOne [SysOp.inventoryUpdateOp 1 (-1)]).products =
      [⟨1, "Widget", "", 500, -1⟩] ∧
    ¬ stocksNonneg (runOps dbOne [SysOp.inventoryUpdateOp 1 (-1)]) := by
  refine ⟨by decide, by decide, ?_⟩
  intro h
  exact absurd (h ⟨1, "Widget", "", 500, -1⟩ (by decide)) (by decide)

/-- Claim C1 (amended): starting from non-negative stocks, stock quantity is
never negative after any sequence of `CreateOrder`, `payment/confirmed` and
`SetStock` operations in which every `SetStock` carries a non-negative stock
value. (`CreateOrder` alone always preserves non-negativity because its
in-transaction check guarantees `quantity ≤ stock` before the decrement;
`SetStock` performs an unconditional write of its argument.) -/
theorem c1_stock_never_negative (db : DB) (ops : List SysOp)
    (h : stocksNonneg db) (hops : ∀ op ∈ ops, opStockSafe op) :
    stocksNonneg (runOps db ops) :=
  runOps_stocksNonneg h hops

/-- Witness for C1 (amended) at a concrete store and operation sequence. -/
theorem c1_witness :
    stocksNonneg dbOne ∧
    stocksNonneg (runOps dbOne
      [SysOp.createOrderOp 2 ⟨1, 2⟩, SysOp.inventoryUpdateOp 1 4]) := by
  refine ⟨by decide, ?_⟩
  apply c1_stock_never_negative dbOne _ (by decide)
  intro op hm
  simp only [List.mem_cons, List.not_mem_nil, or_false] at hm
  rcases hm with rfl | rfl
  · trivial
  · exact (by decide : (0:Int) ≤ 4)

/-- Claim C2: evaluation of the code's transaction structure on the racing
interleaving. `CreateOrder` reads the stock with a plain non-locking SELECT
and later writes `snapshot - quantity`; on the schedule where both
transactions read before either commits (`[0, 1, 0, 1]`), both orders succeed
and the final stock is 0 — a lost update selling two units from a stock of
one, instead of the claimed one success and one `InsufficientStock`. The
sequential schedule `[0, 0, 1, 1]` shows the claimed outcome is what
non-overlapping executions produce. -/
theorem c2_race_two_successes :
    raceRun (1, [⟨1, none, none⟩, ⟨1, none, none⟩]) [0, 1, 0, 1] =
      (0, [⟨1, some 1, some true⟩, ⟨1, some 1, some true⟩]) ∧
    raceRun (1, [⟨1, none, none⟩, ⟨1, none, none⟩]) [0, 0, 1, 1] =
      (0, [⟨1, some 1, some true⟩, ⟨1, some 0, some false⟩]) := by
  decide

/-- Claim C3: evaluation at the failing input. The first `payment/confirmed`
delivery for pending order 7 marks it paid, publishes `order/status_changed`,
and logs no error; the second delivery for the same (now paid) order leaves
the status paid but `UpdateOrderStatus`'s UPDATE changes 0 rows, MySQL
reports 0 rows affected, the service returns the error "order not found",
and the handler logs a failure (third component `true`) — contradicting
"no error reported on the second delivery". -/
theorem c3_second_delivery_errors :
    handlePaymentConfirmed db7 ⟨7, "confirmed"⟩ =
      (db7paid, [Event.orderStatusChanged 7 "paid"], false) ∧
    handlePaymentConfirmed db7paid ⟨7, "confirmed"⟩ = (db7paid, [], true) := by
  decide

/-- Claim C4, counterexample: the claim as stated is false of
`UpdateOrderStatus`, which applies any status unconditionally: invoked with
"pending" on a paid order it succeeds, moves the order back to pending, and
even publishes `order/status_changed`. -/
theorem c4_counterexample :
    (updateOrderStatus dbPaidOrder 1 "pending").1 = .ok () ∧
    (updateOrderStatus dbPaidOrder 1 "pending").2.1.orders =
      [⟨1, 2, 1, 1, 500, "pending"⟩] ∧
    (updateOrderStatus dbPaidOrder 1 "pending").2.2 =
      [Event.orderStatusChanged 1 "pending"] := by
  decide

/-- Claim C4 (amended): `UpdateOrderStatus` itself never rejects a backward
transition, but along the system's actual call paths no backward transition
occurs: the only status the system ever writes is the literal "paid" (from
`handlePaymentConfirmed`) and orders are created "pending", so from any store
whose orders are all pending or paid, (a) every reachable store again has only
pending or paid orders, and (b) each operation maps every existing order to an
order with the same id whose status is at least as far along the chain
`pending → paid → shipped → delivered`. -/
theorem c4_forward_only (db : DB) (ops : List SysOp) (op : SysOp)
    (h : ordersStatusOK db) :
    ordersStatusOK (runOps db ops) ∧
    ∀ o ∈ db.orders, ∃ o' ∈ (applyOp db op).orders,
      o'.id = o.id ∧ statusRank o.status ≤ statusRank o'.status :=
  ⟨runOps_ordersStatusOK h, applyOp_status_monotone op h⟩

/-- Witness for C4 (amended) at a concrete store and operation. -/
theorem c4_witness :
    ordersStatusOK dbPendingOrder ∧
    ordersStatusOK (runOps dbPendingOrder
      [SysOp.paymentConfirmedOp ⟨1, "confirmed"⟩]) :=
  ⟨by decide,
   (c4_forward_only dbPendingOrder [SysOp.paymentConfirmedOp ⟨1, "confirmed"⟩]
      (SysOp.paymentConfirmedOp ⟨1, "confirmed"⟩) (by decide)).1⟩

/-- Claim C5: when `CreateOrder` fails the stock check, the call returns the
`InsufficientStock` error and has no side effects: the database (orders and
stock alike) is returned unchanged and no events are published. -/
theorem c5_insufficient_no_side_effects (db : DB) (uid : Int)
    (req : OrderRequest) (p : Product)
    (h : findProduct db.products req.productID = some p)
    (hq : p.stockQuantity < req.quantity) :
    createOrder db uid req = (.error (.insufficientStock p.stockQuantity), db, []) :=
  createOrder_of_insufficient h hq

/-- Witness for C5: spec Scenario C (stock 0, quantity 1). -/
theorem c5_witness :
    findProduct dbZero.products 1 = some ⟨1, "Widget", "", 500, 0⟩ ∧
    (0 : Int) < 1 ∧
    createOrder dbZero 3 ⟨1, 1⟩ = (.error (.insufficientStock 0), dbZero, []) :=
  ⟨by decide, by decide,
   c5_insufficient_no_side_effects dbZero 3 ⟨1, 1⟩ ⟨1, "Widget", "", 500, 0⟩
     (by decide) (by decide)⟩

/-- Claim C6: (a) a successfully created order stores
`total_cents = price_cents_at_creation × quantity` (the product's price read
inside the same transaction), and (b) `UpdateProduct` touches only the
`products` table, so later price changes leave every stored order — and hence
its total — unchanged. -/
theorem c6_total_price_frozen :
    (∀ (db : DB) (uid : Int) (req : OrderRequest) (p : Product),
        findProduct db.products req.productID = some p →
        ¬ p.stockQuantity < req.quantity →
        (createOrder db uid req).1 =
          .ok ⟨db.nextOrderId, req.productID, p.name, req.quantity,
               p.priceCents * req.quantity, "pending"⟩ ∧
        (createOrder db uid req).2.1.orders =
          db.orders ++ [⟨db.nextOrderId, uid, req.productID, req.quantity,
                         p.priceCents * req.quantity, "pending"⟩]) ∧
    (∀ (db : DB) (id : Int) (req : ProductRequest),
        (updateProduct db id req).2.1.orders = db.orders) := by
  constructor
  · intro db uid req p hf hq
    rw [createOrder_of_ok hf hq]
    exact ⟨rfl, rfl⟩
  · exact updateProduct_orders

/-- Witness for C6: spec Scenario A (price 2999, stock 50, quantity 2 →
total 5998), then a price change to 9999 leaves the stored order intact. -/
theorem c6_witness :
    (createOrder dbScenA 3 ⟨1, 2⟩).1 = .ok ⟨1, 1, "Widget", 2, 5998, "pending"⟩ ∧
    (createOrder dbScenA 3 ⟨1, 2⟩).2.1.orders = [⟨1, 3, 1, 2, 5998, "pending"⟩] ∧
    (updateProduct (createOrder dbScenA 3 ⟨1, 2⟩).2.1 1
        ⟨"Widget", "", 9999, 48⟩).2.1.orders = [⟨1, 3, 1, 2, 5998, "pending"⟩] :=
  have h := c6_total_price_frozen
  ⟨h.1 dbScenA 3 ⟨1, 2⟩ ⟨1, "Widget", "", 2999, 50⟩ (by decide) (by decide) |>.1,
   h.1 dbScenA 3 ⟨1, 2⟩ ⟨1, "Widget", "", 2999, 50⟩ (by decide) (by decide) |>.2,
   by
     rw [h.2 (createOrder dbScenA 3 ⟨1, 2⟩).2.1 1 ⟨"Widget", "", 9999, 48⟩]
     exact h.1 dbScenA 3 ⟨1, 2⟩ ⟨1, "Widget", "", 2999, 50⟩ (by decide) (by decide) |>.2⟩

/-- Claim C7: after a successful `CreateOrder` the `order/created` event is
always among the published events, and the `inventory/low_stock` event is
published if and only if the post-reservation stock is strictly below the
fixed threshold 10. -/
theorem c7_events_on_success (db : DB) (uid : Int) (req : OrderRequest)
    (p : Product) (hf : findProduct db.products req.productID = some p)
    (hq : ¬ p.stockQuantity < req.quantity) :
    Event.orderCreated db.nextOrderId uid req.productID req.quantity
        (p.priceCents * req.quantity) ∈ (createOrder db uid req).2.2 ∧
    (Event.lowStockAlert req.productID p.name (p.stockQuantity - req.quantity) 10
        ∈ (createOrder db uid req).2.2 ↔
      p.stockQuantity - req.quantity < 10) := by
  rw [createOrder_of_ok hf hq]
  refine ⟨List.mem_cons_self _ _, ?_⟩
  by_cases hlt : p.stockQuantity - req.quantity < 10
  · simp [hlt]
  · simp [hlt]

/-- Witness for C7: spec Scenario B (stock 11, quantity 2 → stock 9, both
events) and Scenario A (stock 50, quantity 2 → stock 48, only
`order/created`). -/
theorem c7_witness :
    (createOrder dbScenB 3 ⟨1, 2⟩).2.2 =
      [Event.orderCreated 1 3 1 2 5998, Event.lowStockAlert 1 "Widget" 9 10] ∧
    (createOrder dbScenA 3 ⟨1, 2⟩).2.2 = [Event.orderCreated 1 3 1 2 5998] ∧
    Event.orderCreated 1 3 1 2 5998 ∈ (createOrder dbScenB 3 ⟨1, 2⟩).2.2 ∧
    (Event.lowStockAlert 1 "Widget" 9 10 ∈ (createOrder dbScenB 3 ⟨1, 2⟩).2.2 ↔
      (9 : Int) < 10) :=
  ⟨by decide, by decide,
   (c7_events_on_success dbScenB 3 ⟨1, 2⟩ ⟨1, "Widget", "", 2999, 11⟩
      (by decide) (by decide)).1,
   (c7_events_on_success dbScenB 3 ⟨1, 2⟩ ⟨1, "Widget", "", 2999, 11⟩
      (by decide) (by decide)).2⟩

/-- Claim C8: the gin binding of `models.OrderRequest`
(`quantity binding:required,min=1`) runs before the service is invoked, so a
request with non-positive quantity fails with `InvalidInput` and the endpoint
performs no state change and publishes no events. -/
theorem c8_nonpositive_quantity_rejected (db : DB) (uid : Int)
    (req : OrderRequest) (h : req.quantity ≤ 0) :
    createOrderHTTP db uid req = (.error .invalidInput, db, []) := by
  have h1 : ¬ (1 ≤ req.quantity) := by omega
  have hb : bindOrderRequest req = false := by
    simp [bindOrderRequest, h1]
  unfold createOrderHTTP
  rw [hb]
  simp

/-- Witness for C8 at quantity 0. -/
theorem c8_witness :
    (0 : Int) ≤ 0 ∧
    createOrderHTTP dbScenA 3 ⟨1, 0⟩ = (.error .invalidInput, dbScenA, []) :=
  ⟨by decide, c8_nonpositive_quantity_rejected dbScenA 3 ⟨1, 0⟩ (by decide)⟩

/-- Claim C9: `GetOrder` is scoped to the requesting user. (a) Whenever no
stored order has both the requested id and the requesting user's id — whether
the order is absent or belongs to another user — the result is the same
`orderNotFound` error, so the two cases are indistinguishable; (b) a
successful `GetOrder` implies the store holds an order with that id owned by
the requesting user. -/
theorem c9_get_order_scoped :
    (∀ (db : DB) (oid uid : Int),
        (∀ o ∈ db.orders, o.id = oid → ¬ o.userId = uid) →
        getOrder db oid uid = .error .orderNotFound) ∧
    (∀ (db : DB) (oid uid : Int) (resp : OrderResponse),
        getOrder db oid uid = .ok resp →
        ∃ o ∈ db.orders, o.id = oid ∧ o.userId = uid) := by
  constructor
  · intro db oid uid h
    unfold getOrder
    rw [findOrder_eq_none h]
  · intro db oid uid resp h
    unfold getOrder at h
    cases hf : findOrder db.orders oid uid with
    | none =>
      rw [hf] at h
      exact absurd h (by simp)
    | some o =>
      rcases findOrder_some hf with ⟨hmem, hid, huid⟩
      exact ⟨o, hmem, hid, huid⟩

/-- Witness for C9: order 1 belongs to user 2; user 3 requesting it gets the
same `orderNotFound` outcome as requesting it from a store without the order. -/
theorem c9_witness :
    getOrder dbPendingOrder 1 3 = .error .orderNotFound ∧
    getOrder dbOne 1 3 = .error .orderNotFound ∧
    getOrder dbPendingOrder 1 3 = getOrder dbOne 1 3 :=
  have h1 := c9_get_order_scoped.1 dbPendingOrder 1 3 (by decide)
  have h2 := c9_get_order_scoped.1 dbOne 1 3 (by decide)
  ⟨h1, h2, h1.trans h2.symm⟩

/-- Claim C10: `handlePaymentConfirmed` passes the literal "paid" to
`UpdateOrderStatus`, never the payload's `status` field: (a) the handler's
entire outcome is unchanged under any change of the payload's status string,
and (b) after handling, every order with the referenced id has status "paid". -/
theorem c10_writes_literal_paid :
    (∀ (db : DB) (oid : Int) (s s' : String),
        handlePaymentConfirmed db ⟨oid, s⟩ = handlePaymentConfirmed db ⟨oid, s'⟩) ∧
    (∀ (db : DB) (msg : PaymentConfirmedMsg) (o : Order),
        o ∈ (handlePaymentConfirmed db msg).1.orders → o.id = msg.orderId →
        o.status = "paid") := by
  constructor
  · intro db oid s s'
    rfl
  · intro db msg o ho hid
    rw [handlePaymentConfirmed_db] at ho
    simp only [setStatus, List.mem_map] at ho
    rcases ho with ⟨o0, ho0, rfl⟩
    by_cases h0 : o0.id = msg.orderId
    · rw [if_pos h0]
    · rw [if_neg h0] at hid
      exact absurd hid h0

/-- Witness for C10: a payload carrying status "shipped" behaves exactly like
one carrying "garbage", and the referenced order ends up "paid". -/
theorem c10_witness :
    handlePaymentConfirmed db7 ⟨7, "shipped"⟩ =
      handlePaymentConfirmed db7 ⟨7, "garbage"⟩ ∧
    (⟨7, 3, 1, 1, 500, "paid"⟩ : Order) ∈
      (handlePaymentConfirmed db7 ⟨7, "shipped"⟩).1.orders ∧
    (⟨7, 3, 1, 1, 500, "paid"⟩ : Order).status = "paid" :=
  ⟨c10_writes_literal_paid.1 db7 7 "shipped" "garbage",
   by decide,
   c10_writes_literal_paid.2 db7 ⟨7, "shipped"⟩ ⟨7, 3, 1, 1, 500, "paid"⟩
     (by decide) (by decide)⟩

end OnlineStore
